import Mathlib

/-!
Verification of the rec-radio repository: a shallow embedding of the
Radiko/NHK recording tool chain (authentication, stream resolution,
program data model, capture orchestration, metadata tagging) together
with theorems settling the specification claims C1 to C10.

Each definition is translated from the Python source under src/; the
file it comes from is named in its doc comment.  Definitions whose name
contains the word spec follow the specification text instead, for
comparison with the code-derived definitions.
-/

/-! ## Base64 encoding (Python base64.b64encode, used by radiko_api.py) -/

/-- The standard base64 alphabet, as used by Python base64.b64encode. -/
def b64Alphabet : List Char :=
  String.toList ("ABCDEFGHIJKLMNOPQRSTUVWXYZabcdefghijklmnopqrstuvwxyz0123456789+/")

/-- The base64 digit for a 6-bit value. -/
def b64Char (n : Nat) : Char :=
  b64Alphabet.getD n 'A'

/-- Base64-encode a byte list, three bytes at a time, with padding. -/
def b64EncodeBytes : List Nat → List Char
  | [] => []
  | [b1] =>
      [b64Char (b1 / 4), b64Char (b1 % 4 * 16), '=', '=']
  | [b1, b2] =>
      [b64Char (b1 / 4), b64Char (b1 % 4 * 16 + b2 / 16), b64Char (b2 % 16 * 4), '=']
  | b1 :: b2 :: b3 :: rest =>
      b64Char (b1 / 4) :: b64Char (b1 % 4 * 16 + b2 / 16) ::
      b64Char (b2 % 16 * 4 + b3 / 64) :: b64Char (b3 % 64) ::
      b64EncodeBytes rest

/-- Base64-encode an ASCII string: encode to its character codes
(Python str.encode ascii) and base64 the byte list. -/
def b64EncodeString (s : String) : String :=
  String.mk (b64EncodeBytes (s.toList.map Char.toNat))

/-! ## Python string slicing -/

/-- Python slice s[a:b] for non-negative indices: the characters at
positions a up to (excluding) b, clamped to the string length. -/
def pySlice (s : String) (a b : Nat) : String :=
  String.mk ((s.toList.drop a).take (b - a))

/-! ## RadikoApi.authorize, phase 1 and the partial key
    (src/mypkg/radiko_api.py, lines 332-390) -/

/-- The fixed, publicly known shared secret (RadikoApi.AUTH_KEY). -/
def AUTH_KEY : String := "bcd151073c03b352e1ef2fd66c32209da9ca0afa"

/-- The partial key computed by RadikoApi.authorize:
base64.b64encode(AUTH_KEY[offset : offset + length].encode ascii). -/
def partialKey (offset length : Nat) : String :=
  b64EncodeString (pySlice AUTH_KEY offset (offset + length))

/-- Written from the specification text: base64 of the substring of the
fixed shared secret starting at offset with length characters, that is
secret[offset, offset+length). -/
def specPartialKey (offset length : Nat) : String :=
  b64EncodeString (String.mk ((AUTH_KEY.toList.drop offset).take length))

/-- The phase-1 HTTP response, as far as authorize reads it: the status
code and the three response headers.  A missing header is none. -/
structure Phase1Response where
  status : Nat
  token : Option String
  keyoffset : Option Nat
  keylength : Option Nat
deriving DecidableEq, Repr

/-- Outcome of the phase-1 part of RadikoApi.authorize (lines 350-369):
a non-200 status raises RadikoApiHttpError; a falsy token or a zero
length returns None; otherwise the code proceeds to phase 2 with the
offset and length it read (a missing offset or length header defaults
to 0 via headers.get(key, 0)). -/
inductive Phase1Outcome where
  | httpError (status : Nat)
  | authFailedNone
  | proceedToPhase2 (token : String) (offset length : Nat)
deriving DecidableEq, Repr

/-- Phase 1 of RadikoApi.authorize, translated from radiko_api.py
lines 350-369. -/
def authorizePhase1 (r : Phase1Response) : Phase1Outcome :=
  if r.status ≠ 200 then
    .httpError r.status
  else
    let offset := r.keyoffset.getD 0
    let length := r.keylength.getD 0
    match r.token with
    | none => .authFailedNone
    | some t =>
        if t = "" ∨ length = 0 then .authFailedNone
        else .proceedToPhase2 t offset length

/-- True when phase 1 proceeds to phase 2 rather than signalling failure. -/
def Phase1Outcome.isProceed : Phase1Outcome → Bool
  | .proceedToPhase2 _ _ _ => true
  | _ => false

/-! ## Claim C1 -/

/-- C1: for every valid (offset, length) pair, the partial key derived
by authorize equals the base64 encoding of the substring of the fixed
shared secret starting at offset with length characters. -/
theorem c1_partial_key_eq_spec (offset length : Nat)
    (_h : offset + length ≤ AUTH_KEY.toList.length) :
    partialKey offset length = specPartialKey offset length := by
  unfold partialKey specPartialKey pySlice
  have hlen : offset + length - offset = length := by omega
  rw [hlen]

/-- C1 witness: the property at the boundary pairs offset = 0 and
offset = len(secret) - length, for length 16 on the 40-character secret. -/
theorem c1_partial_key_eq_spec_witness :
    (0 + 16 ≤ AUTH_KEY.toList.length ∧ partialKey 0 16 = specPartialKey 0 16)
    ∧ (24 + 16 ≤ AUTH_KEY.toList.length ∧ partialKey 24 16 = specPartialKey 24 16) :=
  ⟨⟨by decide, c1_partial_key_eq_spec 0 16 (by decide)⟩,
   ⟨by decide, c1_partial_key_eq_spec 24 16 (by decide)⟩⟩

/-! ## Structural models of the Python string operations used below
    (str.split with a one-character separator, str.strip,
    str.startswith, the in operator, "sep".join). -/

/-- Does the list hay start with the list needle? -/
def listStartsWith : List Char → List Char → Bool
  | [], _ => true
  | _ :: _, [] => false
  | n :: ns, h :: hs => n = h && listStartsWith ns hs

/-- Substring containment over character lists (Python x in y on strings). -/
def listContainsSub (needle : List Char) : List Char → Bool
  | [] => needle.isEmpty
  | h :: t => listStartsWith needle (h :: t) || listContainsSub needle t

/-- Python substring test: needle in hay. -/
def containsSub (needle hay : String) : Bool :=
  listContainsSub needle.toList hay.toList

/-- Python str.startswith. -/
def pyStartsWith (s needle : String) : Bool :=
  listStartsWith needle.toList s.toList

/-- Python str.split(sep) for a one-character separator: empty pieces
are preserved. -/
def splitOnChar (c : Char) : List Char → List (List Char)
  | [] => [[]]
  | h :: t =>
      match splitOnChar c t with
      | [] => [[h]]
      | piece :: pieces =>
          if h = c then [] :: piece :: pieces else (h :: piece) :: pieces

/-- Python str.split(sep) at the String level. -/
def pySplit (s : String) (c : Char) : List String :=
  (splitOnChar c s.toList).map String.mk

/-- Python sep.join for a one-character separator. -/
def joinChar (c : Char) : List (List Char) → List Char
  | [] => []
  | [piece] => piece
  | piece :: pieces => piece ++ c :: joinChar c pieces

/-- Python str.strip(): drop leading and trailing whitespace. -/
def pyStrip (s : String) : String :=
  String.mk (((s.toList.dropWhile Char.isWhitespace).reverse.dropWhile
    Char.isWhitespace).reverse)

/-! ## RadikoApi.get_stream_url (src/mypkg/radiko_api.py, lines 392-435) -/

/-- The live playlist URL built by get_stream_url from
BASE_STREAM_URL.format(channel) plus the fixed path suffix. -/
def livePlaylistUrl (channel : String) : String :=
  "https://f-radiko.smartstream.ne.jp/" ++ channel ++
    "/_definst_/simul-stream.stream/playlist.m3u8"

/-- The base URL used for relative chunklist lines:
"/".join(playlist_url.split("/")[:-1]). -/
def baseUrlOf (url : String) : String :=
  String.mk (joinChar '/' ((splitOnChar '/' url.toList).dropLast))

/-- The playlist-scanning loop of get_stream_url: strip each line, skip
empty lines and comments, and on the first line containing chunklist
return it verbatim when it starts with http, otherwise resolve it
against the base URL of the playlist URL. -/
def scanPlaylist (playlistUrl : String) : List String → Option String
  | [] => none
  | line :: rest =>
      let l := pyStrip line
      if l ≠ "" ∧ ¬ pyStartsWith l ("#") then
        if containsSub ("chunklist") l then
          if pyStartsWith l ("http") then some l
          else some (baseUrlOf playlistUrl ++ "/" ++ l)
        else scanPlaylist playlistUrl rest
      else scanPlaylist playlistUrl rest

/-- Failure modes of get_stream_url: an HTTP error raises
RadikoApiHttpError, while a playlist with no chunklist line returns
None; the two are distinct. -/
inductive StreamUrlError where
  | httpError
  | noChunklistLine
deriving DecidableEq, Repr

/-- RadikoApi.get_stream_url, translated from radiko_api.py lines
392-435.  The HTTP fetch is abstracted as its outcome: an error, or the
playlist body text. -/
def get_stream_url (channel : String) (response : Except Unit String) :
    Except StreamUrlError String :=
  match response with
  | .error _ => .error .httpError
  | .ok body =>
      match scanPlaylist (livePlaylistUrl channel) (pySplit body '\n') with
      | some url => .ok url
      | none => .error .noChunklistLine

/-- Written from the specification text: the candidate line is the
first stripped line that is not empty, not a comment, and contains the
sub-playlist marker chunklist. -/
def specIsCandidateLine (l : String) : Bool :=
  !(l = "") && !(pyStartsWith l ("#")) && containsSub ("chunklist") l

/-- Written from the specification text: a full URL is used verbatim,
anything else resolves relative to the directory component of the
original playlist URL, base_dir(original_url) ++ "/" ++ line. -/
def specResolveLine (playlistUrl l : String) : String :=
  if pyStartsWith l ("http") then l else baseUrlOf playlistUrl ++ "/" ++ l

/-- The scanning loop returns exactly the resolution of the first
candidate line (in the find? sense), when one exists. -/
theorem scanPlaylist_eq_find (playlistUrl : String) (lines : List String) :
    scanPlaylist playlistUrl lines =
      ((lines.map pyStrip).find? specIsCandidateLine).map
        (specResolveLine playlistUrl) := by
  induction lines with
  | nil => rfl
  | cons line rest ih =>
      simp only [scanPlaylist, List.map_cons, List.find?]
      by_cases h1 : pyStrip line = ""
      · simp [specIsCandidateLine, h1, ih]
      · by_cases h2 : pyStartsWith (pyStrip line) ("#")
        · simp [specIsCandidateLine, h1, h2, ih]
        · by_cases h3 : containsSub ("chunklist") (pyStrip line)
          · by_cases h4 : pyStartsWith (pyStrip line) ("http") <;>
              simp [specIsCandidateLine, specResolveLine, h1, h2, h3, h4]
          · simp [specIsCandidateLine, h1, h2, h3, ih]

/-! ## Claim C2 -/

/-- C2: live stream resolution returns the first non-comment line
containing the chunklist marker, verbatim when it is a full URL and
otherwise resolved against the directory component of the playlist URL;
a body with no such line is a resolution failure distinct from an HTTP
failure; and the concrete body containing a full chunklist URL on its
own line yields exactly that URL. -/
theorem c2_stream_resolution (channel body : String) :
    (get_stream_url channel (.ok body) =
      match ((pySplit body '\n').map pyStrip).find? specIsCandidateLine with
      | some l => .ok (specResolveLine (livePlaylistUrl channel) l)
      | none => .error .noChunklistLine)
    ∧ (∀ e : Unit, get_stream_url channel (.error e) = .error .httpError)
    ∧ get_stream_url ("TBS") (.ok ("#EXTM3U\nhttps://x/y/chunklist_w1.m3u8\n"))
        = .ok ("https://x/y/chunklist_w1.m3u8")
    ∧ get_stream_url ("TBS") (.ok ("#EXTM3U\nchunklist_w2.m3u8\n"))
        = .ok ("https://f-radiko.smartstream.ne.jp/TBS/_definst_/simul-stream.stream/chunklist_w2.m3u8")
    ∧ get_stream_url ("TBS") (.ok ("#EXTM3U\nnothing-here\n"))
        = .error .noChunklistLine := by
  refine ⟨?_, fun e => rfl, rfl, rfl, rfl⟩
  show (match scanPlaylist (livePlaylistUrl channel) (pySplit body '\n') with
        | some url => Except.ok url
        | none => Except.error StreamUrlError.noChunklistLine) = _
  rw [scanPlaylist_eq_find]
  cases ((pySplit body '\n').map pyStrip).find? specIsCandidateLine with
  | none => rfl
  | some l => rfl

/-! ## Calendar arithmetic (Python datetime.strptime and timedelta,
    as used by Program.__post_init__ in src/mypkg/program.py) -/

/-- Gregorian leap year. -/
def isLeapYear (y : Nat) : Bool :=
  y % 4 = 0 && (y % 100 ≠ 0 || y % 400 = 0)

/-- Days in a month of a given year. -/
def daysInMonth (y m : Nat) : Nat :=
  if m = 2 then (if isLeapYear y then 29 else 28)
  else if m = 4 ∨ m = 6 ∨ m = 9 ∨ m = 11 then 30
  else 31

/-- A parsed YYYYMMDDHHMMSS timestamp. -/
structure DT6 where
  year : Nat
  month : Nat
  day : Nat
  hour : Nat
  minute : Nat
  second : Nat
deriving DecidableEq, Repr

/-- Absolute day number of a Gregorian date (days-from-civil, era
based; the origin is irrelevant because only differences are used). -/
def civilDays (y m d : Nat) : Nat :=
  let yAdj := y - (if m ≤ 2 then 1 else 0)
  let era := yAdj / 400
  let yoe := yAdj % 400
  let mp := (m + 9) % 12
  let doy := (153 * mp + 2) / 5 + (d - 1)
  let doe := yoe * 365 + yoe / 4 - yoe / 100 + doy
  era * 146097 + doe

/-- Seconds value of a timestamp, from the day number. -/
def dtSeconds (t : DT6) : Nat :=
  civilDays t.year t.month t.day * 86400 + t.hour * 3600 + t.minute * 60 + t.second

/-- Numeric value of a digit list (most significant first). -/
def digitsToNat (l : List Char) : Nat :=
  l.foldl (fun acc c => acc * 10 + (c.toNat - 48)) 0

/-- datetime.strptime(s, "%Y%m%d%H%M%S"): exactly 14 digits, with the
calendar fields range-checked (year at least 1, month 1-12, day within
the month, hour below 24, minute and second below 60); anything else
raises ValueError, modelled as none. -/
def strptime14 (s : String) : Option DT6 :=
  let cs := s.toList
  if cs.length = 14 ∧ cs.all Char.isDigit then
    let y := digitsToNat (cs.take 4)
    let mo := digitsToNat ((cs.drop 4).take 2)
    let d := digitsToNat ((cs.drop 6).take 2)
    let h := digitsToNat ((cs.drop 8).take 2)
    let mi := digitsToNat ((cs.drop 10).take 2)
    let sec := digitsToNat ((cs.drop 12).take 2)
    if 1 ≤ y ∧ 1 ≤ mo ∧ mo ≤ 12 ∧ 1 ≤ d ∧ d ≤ daysInMonth y mo ∧
        h ≤ 23 ∧ mi ≤ 59 ∧ sec ≤ 59 then
      some ⟨y, mo, d, h, mi, sec⟩
    else none
  else none

/-! ## The Program data model (src/mypkg/program.py) -/

/-- The source enum of Program: the Literal type nhk | radiko. -/
inductive Source where
  | nhk
  | radiko
deriving DecidableEq, Repr

/-- The Program dataclass (program.py lines 14-62), with the fields the
claims touch; duration is stored in minutes as a Python int. -/
structure Program where
  title : String
  station : String
  start_time : String
  end_time : String
  source : Source
  area : String := "JP13"
  stream_url : Option String := none
  duration : Int := 0
  performer : Option String := none
  description : Option String := none
  program_title : Option String := none
  program_sub_title : Option String := none
  info : Option String := none
  image_url : Option String := none
  url : Option String := none
deriving DecidableEq, Repr

/-- Program.__post_init__ (program.py lines 64-73): when the supplied
duration is 0, parse both timestamps and store the difference in
minutes, int((end - start).total_seconds() / 60) truncating toward
zero; a ValueError from strptime leaves duration at 0. -/
def postInitDuration (start_time end_time : String) (duration : Int) : Int :=
  if duration = 0 then
    match strptime14 start_time, strptime14 end_time with
    | some s, some e => ((dtSeconds e : Int) - (dtSeconds s : Int)).tdiv 60
    | _, _ => 0
  else duration

/-- Construct a Program the way the dataclass does, running
__post_init__ on the supplied duration. -/
def mkProgram (title station start_time end_time : String) (source : Source)
    (stream_url : Option String) (duration : Int)
    (performer description info image_url url : Option String) : Program :=
  { title := title, station := station, start_time := start_time,
    end_time := end_time, source := source, stream_url := stream_url,
    duration := postInitDuration start_time end_time duration,
    performer := performer, description := description, info := info,
    image_url := image_url, url := url }

/-- Program.get_duration_minutes (program.py lines 75-81). -/
def Program.get_duration_minutes (p : Program) : Int :=
  p.duration

/-- Program.get_duration_seconds (program.py lines 83-89). -/
def Program.get_duration_seconds (p : Program) : Int :=
  p.duration * 60

/-- Program.is_recordable (program.py lines 175-183): the Python test
stream_url is not None. -/
def Program.is_recordable (p : Program) : Bool :=
  p.stream_url.isSome

/-- Written from the specification text: recordable if and only if
stream_url is present and non-empty. -/
def specIsRecordable (p : Program) : Bool :=
  match p.stream_url with
  | some s => !(s = "")
  | none => false

/-! ## Claim C3 -/

/-- C3: for a Program whose start and end times are canonical 14-digit
timestamps and whose duration is not overridden (supplied as 0),
get_duration_minutes equals the end minus start difference expressed in
minutes. -/
theorem c3_duration_minutes
    (title station st et : String) (source : Source)
    (stream_url : Option String)
    (performer description info image_url url : Option String)
    (s e : DT6) (hs : strptime14 st = some s) (he : strptime14 et = some e) :
    (mkProgram title station st et source stream_url 0
        performer description info image_url url).get_duration_minutes =
      ((dtSeconds e : Int) - (dtSeconds s : Int)).tdiv 60 := by
  simp [mkProgram, Program.get_duration_minutes, postInitDuration, hs, he]

/-- C3 witness: the 13:30 to 13:55 program computes 25 minutes, and the
23:00 to next-day 01:00 midnight-crossing window computes 120 minutes,
not a negative value. -/
theorem c3_duration_minutes_witness :
    ((mkProgram ("t") ("TBS") ("20260120133000") ("20260120135500") .radiko
        none 0 none none none none none).get_duration_minutes = 25
      ∧ strptime14 ("20260120133000") = some ⟨2026, 1, 20, 13, 30, 0⟩)
    ∧ ((mkProgram ("t") ("TBS") ("20260120230000") ("20260121010000") .radiko
        none 0 none none none none none).get_duration_minutes = 120
      ∧ (0 : Int) ≤ 120) := by
  constructor
  · constructor
    · rw [c3_duration_minutes ("t") ("TBS") ("20260120133000") ("20260120135500")
        .radiko none none none none none none ⟨2026, 1, 20, 13, 30, 0⟩
        ⟨2026, 1, 20, 13, 55, 0⟩ (by decide) (by decide)]
      decide
    · decide
  · constructor
    · rw [c3_duration_minutes ("t") ("TBS") ("20260120230000") ("20260121010000")
        .radiko none none none none none none ⟨2026, 1, 20, 23, 0, 0⟩
        ⟨2026, 1, 21, 1, 0, 0⟩ (by decide) (by decide)]
      decide
    · decide

/-! ## Claim C4 -/

/-- A concrete Program whose stream URL is present but empty. -/
def emptyUrlProgram : Program :=
  mkProgram ("t") ("TBS") ("20260120133000") ("20260120135500") .radiko
    (some ("")) 0 none none none none none

/-- C4 counterexample: the claim says is_recordable is true if and only
if stream_url is present and non-empty, but for a Program whose
stream_url is the empty string the code (stream_url is not None)
returns true while the specification predicate is false. -/
theorem c4_counterexample :
    emptyUrlProgram.is_recordable = true
    ∧ emptyUrlProgram.stream_url = some ("")
    ∧ specIsRecordable emptyUrlProgram = false := by
  refine ⟨rfl, rfl, rfl⟩

/-- C4 as amended: is_recordable is true if and only if stream_url is
present (not None), even when it is the empty string; in particular a
Program constructed without a stream URL is not recordable.  It remains
a derived predicate of the stored stream_url field. -/
theorem c4_is_recordable_amended (p : Program) :
    (p.is_recordable = true ↔ p.stream_url ≠ none)
    ∧ ({ p with stream_url := none } : Program).is_recordable = false := by
  constructor
  · cases h : p.stream_url with
    | none => simp [Program.is_recordable, h]
    | some s => simp [Program.is_recordable, h]
  · rfl

/-- C4 amended witness: the equivalence evaluated on the concrete
empty-URL Program and on the same Program without a stream URL. -/
theorem c4_is_recordable_amended_witness :
    (emptyUrlProgram.is_recordable = true ↔ emptyUrlProgram.stream_url ≠ none)
    ∧ ({ emptyUrlProgram with stream_url := none } : Program).is_recordable
        = false :=
  c4_is_recordable_amended emptyUrlProgram

/-! ## Claim C5 -/

/-- Written from the specification text: phase 1 must fail when any of
the three response values (token, offset, length) is absent or the
status is not a success. -/
def specPhase1MustFail (r : Phase1Response) : Prop :=
  r.status ≠ 200 ∨ r.token = none ∨ r.keyoffset = none ∨ r.keylength = none

/-- A phase-1 response with a 200 status, a token and a length but no
offset header. -/
def noOffsetResponse : Phase1Response :=
  { status := 200, token := some ("t"), keyoffset := none,
    keylength := some 16 }

/-- C5 counterexample: the claim says absence of any of the three
response values fails phase 1, but when only the offset header is
absent authorize defaults it to 0 via headers.get and proceeds to
phase 2. -/
theorem c5_counterexample :
    specPhase1MustFail noOffsetResponse
    ∧ authorizePhase1 noOffsetResponse = .proceedToPhase2 ("t") 0 16
    ∧ (authorizePhase1 noOffsetResponse).isProceed = true := by
  refine ⟨Or.inr (Or.inr (Or.inl rfl)), rfl, rfl⟩

/-- C5 as amended: phase 1 proceeds to phase 2 exactly when the status
is 200, the token is present and non-empty, and the length value
(defaulting to 0 when the header is absent) is non-zero; a missing
offset header does not fail phase 1 but defaults to 0. -/
theorem c5_phase1_amended (r : Phase1Response) :
    (authorizePhase1 r).isProceed = true ↔
      (r.status = 200 ∧ (∃ t, r.token = some t ∧ t ≠ "")
        ∧ r.keylength.getD 0 ≠ 0) := by
  unfold authorizePhase1
  by_cases hst : r.status = 200
  · simp only [hst, ne_eq, not_true_eq_false, if_false]
    cases htok : r.token with
    | none => simp [Phase1Outcome.isProceed]
    | some t =>
        by_cases ht : t = ""
        · simp [ht, Phase1Outcome.isProceed]
        · by_cases hl : r.keylength.getD 0 = 0
          · simp [ht, hl, Phase1Outcome.isProceed]
          · simp [ht, hl, Phase1Outcome.isProceed]
  · simp [hst, Phase1Outcome.isProceed]

/-- C5 amended witness: the equivalence evaluated on the concrete
no-offset response, whose phase 1 proceeds. -/
theorem c5_phase1_amended_witness :
    (authorizePhase1 noOffsetResponse).isProceed = true ↔
      (noOffsetResponse.status = 200
        ∧ (∃ t, noOffsetResponse.token = some t ∧ t ≠ "")
        ∧ noOffsetResponse.keylength.getD 0 ≠ 0) :=
  c5_phase1_amended noOffsetResponse

/-! ## The capture orchestrator and metadata tagger
    (src/mypkg/recorder_common.py and src/mypkg/recorder_radiko.py) -/

/-- Python truthiness of an optional string: None and the empty string
are falsy. -/
def optStrTruthy : Option String → Bool
  | none => false
  | some s => !(s = "")

/-- The environment a recording run observes: whether ffmpeg is on the
PATH, the exit code of the spawned subprocess, whether the MP4
container operations (open, tag, save) succeed, whether the cover-art
HTTP fetch succeeds, and what get_stream_url would return when the
program has no stream URL yet. -/
structure CaptureEnv where
  ffmpegAvailable : Bool
  exitCode : Nat
  mp4Ok : Bool
  coverFetchOk : Bool
  streamFetch : Option String
deriving DecidableEq, Repr

/-- RecorderCommon.record_stream (recorder_common.py lines 39-119):
returns False when ffmpeg is unavailable; otherwise runs the subprocess
with check=True, so the result is True exactly when the exit code is 0
(stdout and stderr are printed, never parsed). -/
def record_stream (env : CaptureEnv) : Bool :=
  if env.ffmpegAvailable then env.exitCode = 0 else false

/-- ProgramFormatter.get_metadata_comment (program_formatter.py lines
193-216): the description when truthy, else the info when truthy, else
the empty string. -/
def get_metadata_comment (description info : Option String) : String :=
  if optStrTruthy description then description.getD ("")
  else if optStrTruthy info then info.getD ("")
  else ""

/-- Written from the specification text: the comment is the
concatenation of the description and info fields, slash-joined,
skipping absent parts. -/
def specSlashComment (description info : Option String) : String :=
  let parts :=
    (match description with
     | some d => if d = "" then [] else [d]
     | none => []) ++
    (match info with
     | some i => if i = "" then [] else [i]
     | none => [])
  String.mk (joinChar '/' (parts.map String.toList))

/-- The MP4 tag slots written by RecorderCommon.set_metadata; a none
slot is left unset. -/
structure Mp4Tags where
  nam : Option String
  alb : Option String
  art : Option String
  aART : Option String
  cmt : Option String
  gen : Option String
  trkn : Option (Nat × Nat)
  disk : Option (Nat × Nat)
  covr : Bool
deriving DecidableEq, Repr

/-- RecorderCommon.set_metadata (recorder_common.py lines 121-183),
returning the tags it writes: none models the OSError/ValueError/
AttributeError path that returns False.  The cover-art fetch is
attempted only for a truthy image_url and its failure is caught and
skipped, never failing the operation. -/
def run_set_metadata (p : Program) (track_num : Option Nat)
    (env : CaptureEnv) : Option Mp4Tags :=
  if env.mp4Ok then
    some
      { nam := if !(p.title = "") then some p.title else none,
        alb := some p.station,
        art := if optStrTruthy p.performer then p.performer else none,
        aART := if optStrTruthy p.performer then p.performer else none,
        cmt :=
          let comment := get_metadata_comment p.description p.info
          if !(comment = "") then some comment else none,
        gen := some ("Radio"),
        trkn :=
          match track_num with
          | some n => if n ≠ 0 then some (n, 0) else none
          | none => none,
        disk := some (1, 1),
        covr := optStrTruthy p.image_url && env.coverFetchOk }
  else none

/-- The boolean result of RecorderCommon.set_metadata. -/
def set_metadata (p : Program) (track_num : Option Nat)
    (env : CaptureEnv) : Bool :=
  (run_set_metadata p track_num env).isSome

/-- The outcome of RecorderRadiko.record_program: whether it returned
True, and whether set_metadata was invoked during the run. -/
structure RecordOutcome where
  success : Bool
  taggerInvoked : Bool
deriving DecidableEq, Repr

/-- RecorderRadiko.record_program (recorder_radiko.py lines 66-134):
a non-Radiko program raises ValueError (the error case); a falsy
stream_url is back-filled from get_stream_url, a falsy result failing
the run; then the stream is recorded, a failed recording returning
False before set_metadata is ever called; after a successful recording
set_metadata runs and the method returns True whether or not it
succeeded (only a warning is printed when it fails). -/
def record_program (p : Program) (env : CaptureEnv) :
    Except Unit RecordOutcome :=
  if p.source ≠ .radiko then .error ()
  else
    let streamUrl :=
      if optStrTruthy p.stream_url then p.stream_url else env.streamFetch
    if ¬ optStrTruthy streamUrl then .ok { success := false, taggerInvoked := false }
    else
      if record_stream env then
        let _md := set_metadata p none env
        .ok { success := true, taggerInvoked := true }
      else .ok { success := false, taggerInvoked := false }

/-! ## Claim C6 -/

/-- C6: for a capture invocation (a Radiko program with a usable stream
URL, ffmpeg available), a subprocess exit code of 0 makes the
orchestrator report success, and any non-zero exit code makes it report
a capture failure in which case the metadata tagger is never invoked. -/
theorem c6_exit_code_controls_outcome (p : Program) (env : CaptureEnv)
    (hsrc : p.source = .radiko) (hurl : optStrTruthy p.stream_url = true)
    (hff : env.ffmpegAvailable = true) :
    (env.exitCode = 0 →
      record_stream env = true
      ∧ record_program p env = .ok { success := true, taggerInvoked := true })
    ∧ (env.exitCode ≠ 0 →
      record_stream env = false
      ∧ record_program p env
          = .ok { success := false, taggerInvoked := false }) := by
  constructor
  · intro hz
    have hrec : record_stream env = true := by simp [record_stream, hff, hz]
    refine ⟨hrec, ?_⟩
    simp [record_program, hsrc, hurl, hrec]
  · intro hnz
    have hrec : record_stream env = false := by simp [record_stream, hff, hnz]
    refine ⟨hrec, ?_⟩
    simp [record_program, hsrc, hurl, hrec]

/-- A concrete recordable Radiko program. -/
def liveProgram : Program :=
  mkProgram ("news") ("TBS") ("20260120133000") ("20260120135500") .radiko
    (some ("https://x/y/chunklist.m3u8")) 0 none none none none none

/-- C6 witness: the theorem instantiated at the concrete program with
exit code 0 and with exit code 1. -/
theorem c6_exit_code_controls_outcome_witness :
    (record_program liveProgram
        { ffmpegAvailable := true, exitCode := 0, mp4Ok := true,
          coverFetchOk := true, streamFetch := none }
      = .ok { success := true, taggerInvoked := true })
    ∧ (record_program liveProgram
        { ffmpegAvailable := true, exitCode := 1, mp4Ok := true,
          coverFetchOk := true, streamFetch := none }
      = .ok { success := false, taggerInvoked := false }) :=
  ⟨((c6_exit_code_controls_outcome liveProgram
      { ffmpegAvailable := true, exitCode := 0, mp4Ok := true,
        coverFetchOk := true, streamFetch := none }
      rfl rfl rfl).1 rfl).2,
   ((c6_exit_code_controls_outcome liveProgram
      { ffmpegAvailable := true, exitCode := 1, mp4Ok := true,
        coverFetchOk := true, streamFetch := none }
      rfl rfl rfl).2 (by decide)).2⟩

/-! ## Claim C7 -/

/-- C7: once capture has succeeded, a set_metadata failure does not
fail the run: record_program still returns True (the file is retained,
with only a warning printed), for every tagging environment including
env.mp4Ok = false; and a cover-art fetch failure never fails the
tagging operation itself: with the container operations fine and the
cover fetch failing, set_metadata still returns true. -/
theorem c7_tagging_failure_is_nonfatal (p : Program) (env : CaptureEnv)
    (hsrc : p.source = .radiko) (hurl : optStrTruthy p.stream_url = true)
    (hff : env.ffmpegAvailable = true) (hz : env.exitCode = 0) :
    record_program p env = .ok { success := true, taggerInvoked := true }
    ∧ (env.mp4Ok = false → set_metadata p none env = false)
    ∧ (∀ track_num : Option Nat, ∀ envT : CaptureEnv,
        envT.mp4Ok = true → envT.coverFetchOk = false →
        set_metadata p track_num envT = true) := by
  have hrec : record_stream env = true := by simp [record_stream, hff, hz]
  refine ⟨by simp [record_program, hsrc, hurl, hrec], ?_, ?_⟩
  · intro hmp4
    simp [set_metadata, run_set_metadata, hmp4]
  · intro track_num envT hmp4 _hc
    simp [set_metadata, run_set_metadata, hmp4]

/-- C7 witness: with capture succeeded and the container operations
failing, the run still reports success, and with the cover fetch
failing the tagging operation still succeeds. -/
theorem c7_tagging_failure_is_nonfatal_witness :
    (record_program liveProgram
        { ffmpegAvailable := true, exitCode := 0, mp4Ok := false,
          coverFetchOk := false, streamFetch := none }
      = .ok { success := true, taggerInvoked := true })
    ∧ set_metadata liveProgram none
        { ffmpegAvailable := true, exitCode := 0, mp4Ok := false,
          coverFetchOk := false, streamFetch := none } = false
    ∧ set_metadata liveProgram none
        { ffmpegAvailable := true, exitCode := 0, mp4Ok := true,
          coverFetchOk := false, streamFetch := none } = true := by
  have h := c7_tagging_failure_is_nonfatal liveProgram
    { ffmpegAvailable := true, exitCode := 0, mp4Ok := false,
      coverFetchOk := false, streamFetch := none } rfl rfl rfl rfl
  exact ⟨h.1, h.2.1 rfl,
    h.2.2 none
      { ffmpegAvailable := true, exitCode := 0, mp4Ok := true,
        coverFetchOk := false, streamFetch := none } rfl rfl⟩

/-! ## Claim C9 -/

/-- The comment slot as actually written: the description when truthy,
else the info when truthy, else unset. -/
def amendedComment (description info : Option String) : Option String :=
  if optStrTruthy description then some (description.getD (""))
  else if optStrTruthy info then some (info.getD (""))
  else none

/-- A concrete Program carrying both a description and an info field. -/
def commentProgram : Program :=
  mkProgram ("news") ("TBS") ("20260120133000") ("20260120135500") .radiko
    (some ("https://x/y/chunklist.m3u8")) 0 none (some ("A")) (some ("B"))
    none none

/-- A tagging environment in which every external operation succeeds. -/
def allOkEnv : CaptureEnv :=
  { ffmpegAvailable := true, exitCode := 0, mp4Ok := true,
    coverFetchOk := true, streamFetch := none }

/-- C9 counterexample: with both description and info present the claim
says the comment is both parts slash-joined, but get_metadata_comment
returns the description alone, and the comment tag the tagger writes
does not contain the info part at all. -/
theorem c9_counterexample :
    get_metadata_comment (some ("A")) (some ("B")) = "A"
    ∧ specSlashComment (some ("A")) (some ("B")) = "A/B"
    ∧ (run_set_metadata commentProgram none allOkEnv).map Mp4Tags.cmt
        = some (some ("A"))
    ∧ containsSub ("B") (get_metadata_comment (some ("A")) (some ("B")))
        = false := by
  refine ⟨rfl, rfl, rfl, rfl⟩

/-- C9 as amended: the comment tag written by the metadata tagger is
the description when present and non-empty, otherwise the info field
when present and non-empty, otherwise no comment tag is written; absent
or empty parts are skipped but the two parts are never joined. -/
theorem c9_comment_amended (p : Program) (track_num : Option Nat)
    (env : CaptureEnv) (h : env.mp4Ok = true) :
    (run_set_metadata p track_num env).map Mp4Tags.cmt
      = some (amendedComment p.description p.info) := by
  simp only [run_set_metadata, h, if_true, Option.map_some]
  cases hd : p.description with
  | some d =>
      by_cases hde : d = ""
      · cases hi : p.info with
        | some i =>
            by_cases hie : i = ""
            · simp [get_metadata_comment, amendedComment, optStrTruthy, hde, hie]
            · simp [get_metadata_comment, amendedComment, optStrTruthy, hde, hie]
        | none => simp [get_metadata_comment, amendedComment, optStrTruthy, hde]
      · simp [get_metadata_comment, amendedComment, optStrTruthy, hde]
  | none =>
      cases hi : p.info with
      | some i =>
          by_cases hie : i = ""
          · simp [get_metadata_comment, amendedComment, optStrTruthy, hie]
          · simp [get_metadata_comment, amendedComment, optStrTruthy, hie]
      | none => simp [get_metadata_comment, amendedComment, optStrTruthy]

/-- C9 amended witness: the amended statement evaluated on the concrete
Program carrying both fields. -/
theorem c9_comment_amended_witness :
    allOkEnv.mp4Ok = true
    ∧ (run_set_metadata commentProgram none allOkEnv).map Mp4Tags.cmt
        = some (amendedComment commentProgram.description
            commentProgram.info) :=
  ⟨rfl, c9_comment_amended commentProgram none allOkEnv rfl⟩

/-! ## Program._normalize_nhk_datetime (src/mypkg/program.py, lines
    259-311) -/

/-- The character for a decimal digit value. -/
def digitChar (n : Nat) : Char :=
  Char.ofNat (48 + n)

/-- Decimal digits of a number, most significant first (fuel-driven so
that it is structural and evaluates in the kernel). -/
def natToStrAux : Nat → Nat → List Char
  | 0, _ => []
  | fuel + 1, n =>
      if n < 10 then [digitChar n]
      else natToStrAux fuel (n / 10) ++ [digitChar (n % 10)]

/-- Decimal string of a number. -/
def natToStr (n : Nat) : String :=
  String.mk (natToStrAux (n + 1) n)

/-- Zero-pad to two digits (strftime %m, %d, %H, %M, %S). -/
def pad2 (n : Nat) : String :=
  if n < 10 then "0" ++ natToStr n else natToStr n

/-- Zero-pad to four digits (strftime %Y). -/
def pad4 (n : Nat) : String :=
  if n < 10 then "000" ++ natToStr n
  else if n < 100 then "00" ++ natToStr n
  else if n < 1000 then "0" ++ natToStr n
  else natToStr n

/-- datetime(y, mo, d, h, mi, s).strftime("%Y%m%d%H%M%S"). -/
def fmtDT14 (y mo d h mi s : Nat) : String :=
  pad4 y ++ (pad2 mo ++ (pad2 d ++ (pad2 h ++ (pad2 mi ++ pad2 s))))

/-- re.search for a pattern of one or more digits followed by a fixed
marker character: the leftmost maximal digit run immediately followed
by the marker, as its numeric value. -/
def findNumBefore (marker : Char) : List Char → Option Nat
  | [] => none
  | c :: rest =>
      if c.isDigit then
        let run := (c :: rest).takeWhile Char.isDigit
        let after := (c :: rest).dropWhile Char.isDigit
        match after with
        | m :: _ =>
            if m = marker then some (digitsToNat run)
            else findNumBefore marker rest
        | [] => findNumBefore marker rest
      else findNumBefore marker rest

/-- re.search for the pattern AM-or-PM marker, digits, colon, digits:
the leftmost occurrence, returning whether it is PM together with the
hour and minute values. -/
def findAmPmTime : List Char → Option (Bool × Nat × Nat)
  | [] => none
  | c :: rest =>
      if c = '午' then
        match rest with
        | c2 :: rest2 =>
            if c2 = '前' ∨ c2 = '後' then
              let hourRun := rest2.takeWhile Char.isDigit
              match rest2.dropWhile Char.isDigit with
              | ':' :: rest3 =>
                  let minRun := rest3.takeWhile Char.isDigit
                  if hourRun ≠ [] ∧ minRun ≠ [] then
                    some (c2 = '後', digitsToNat hourRun, digitsToNat minRun)
                  else findAmPmTime rest
              | _ => findAmPmTime rest
            else findAmPmTime rest
        | [] => none
      else findAmPmTime rest

/-- The hour adjustment of _normalize_nhk_datetime (program.py lines
296-300): add 12 for PM unless the hour is 12, map AM hour 12 to 0. -/
def adjustHour (isPM : Bool) (hour : Nat) : Nat :=
  if isPM ∧ hour ≠ 12 then hour + 12
  else if ¬ isPM ∧ hour = 12 then 0
  else hour

/-- Written from the specification text: PM adds 12 hours to the hour
value unless the hour is already 12, and AM maps hour 12 to 0. -/
def specAdjustHour (isPM : Bool) (hour : Nat) : Nat :=
  if isPM then (if hour = 12 then 12 else hour + 12)
  else (if hour = 12 then 0 else hour)

/-- Program._normalize_nhk_datetime (program.py lines 259-311), with
the ambient current year injected as a parameter: the empty string maps
to itself; a string whose first 14 characters are digits is cut to
them; otherwise the month, day and AM/PM time fragments are searched
for and, when all three are found, formatted with the current year and
the adjusted hour; otherwise the text is returned unchanged. -/
def normalize_nhk_datetime (currentYear : Nat) (s : String) : String :=
  if s = "" then ""
  else
    let cs := s.toList
    if 14 ≤ cs.length ∧ (cs.take 14).all Char.isDigit then
      String.mk (cs.take 14)
    else
      match findNumBefore '月' cs, findNumBefore '日' cs, findAmPmTime cs with
      | some month, some day, some (isPM, hour, minute) =>
          fmtDT14 currentYear month day (adjustHour isPM hour) minute 0
      | _, _, _ => s

/-! ## Claim C8 -/

/-- C8: the hour adjustment of the normalizer agrees everywhere with
the specification rule (PM adds 12 unless the hour is already 12, AM
maps 12 to 0), and for every current year in the range datetime
accepts, the PM fragment normalizes to the current year followed by
0118233000 (so it ends with 233000) and the AM fragment to the current
year followed by 0118090000 (so it ends with 090000). -/
theorem c8_nhk_normalizer (year : Nat)
    (_h1 : 1 ≤ year) (_h2 : year ≤ 9999) :
    normalize_nhk_datetime year ("1月18日(日)午後11:30放送")
      = pad4 year ++ ("0118233000")
    ∧ normalize_nhk_datetime year ("1月18日(日)午前9:00放送")
      = pad4 year ++ ("0118090000")
    ∧ ∀ (isPM : Bool) (hour : Nat),
        adjustHour isPM hour = specAdjustHour isPM hour := by
  refine ⟨rfl, rfl, ?_⟩
  intro isPM hour
  cases isPM with
  | true =>
      by_cases h : hour = 12
      · simp [adjustHour, specAdjustHour, h]
      · simp [adjustHour, specAdjustHour, h]
  | false =>
      by_cases h : hour = 12
      · simp [adjustHour, specAdjustHour, h]
      · simp [adjustHour, specAdjustHour, h]

/-- C8 witness: the theorem at the concrete current year 2026, with the
results fully evaluated. -/
theorem c8_nhk_normalizer_witness :
    (1 ≤ 2026 ∧ 2026 ≤ 9999)
    ∧ normalize_nhk_datetime 2026 ("1月18日(日)午後11:30放送")
        = "20260118233000"
    ∧ normalize_nhk_datetime 2026 ("1月18日(日)午前9:00放送")
        = "20260118090000" :=
  ⟨⟨by decide, by decide⟩,
   Eq.trans (c8_nhk_normalizer 2026 (by decide) (by decide)).1 rfl,
   Eq.trans (c8_nhk_normalizer 2026 (by decide) (by decide)).2.1 rfl⟩

/-! ## Time-free recording (src/tfrec_radiko.py) -/

/-- get_stream_url_for_timefree (tfrec_radiko.py lines 104-138): the
deterministic time-free stream URL embedding the station and the
start/end timestamps. -/
def build_timefree_url (station start_time end_time : String) : String :=
  "https://radiko.jp/v2/api/ts/playlist.m3u8?" ++
    "station_id=" ++ station ++ "&l=15&ft=" ++ start_time ++
    "&to=" ++ end_time

/-- The query parameters of a URL: the part after the first question
mark, split on the ampersand. -/
def queryParamsOf (url : String) : List String :=
  match splitOnChar '?' url.toList with
  | _ :: q :: _ => (splitOnChar '&' q).map String.mk
  | _ => []

/-- generate_output_filename (tfrec_radiko.py lines 78-101):
station ++ underscore ++ YYYY-MM-DD-HH_MM slices of the start time,
with the fixed .mp4 extension. -/
def generate_output_filename (station start_time end_time : String) : String :=
  let _ := end_time
  station ++ "_" ++ pySlice start_time 0 4 ++ "-" ++ pySlice start_time 4 6
    ++ "-" ++ pySlice start_time 6 8 ++ "-" ++ pySlice start_time 8 10
    ++ "_" ++ pySlice start_time 10 12 ++ ".mp4"

/-- The recording duration computed by tfrec_radiko.main (lines
374-380): int((end - start).total_seconds()), in seconds; a strptime
failure is modelled as none. -/
def tfrecDurationSeconds (start_time end_time : String) : Option Int :=
  match strptime14 start_time, strptime14 end_time with
  | some s, some e => some ((dtSeconds e : Int) - (dtSeconds s : Int))
  | _, _ => none

/-- The query parameters the claim says the URL carries exactly. -/
def specClaimedParams : List String :=
  ["station_id=TBS", "ft=20260125093000", "to=20260125100000"]

/-! ## Claim C10 -/

/-- C10 counterexample: the constructed time-free URL for TBS with the
given window carries the fixed parameter l=15 in addition to the three
parameters the claim lists, so its query parameters are not exactly
those three. -/
theorem c10_counterexample :
    queryParamsOf
        (build_timefree_url ("TBS") ("20260125093000") ("20260125100000"))
      = ["station_id=TBS", "l=15", "ft=20260125093000", "to=20260125100000"]
    ∧ "l=15" ∈ queryParamsOf
        (build_timefree_url ("TBS") ("20260125093000") ("20260125100000"))
    ∧ "l=15" ∉ specClaimedParams := by
  refine ⟨rfl, by decide, by decide⟩

/-- C10 as amended: for station TBS in time-windowed mode with the
given window, the constructed stream URL carries exactly the query
parameters station_id=TBS, l=15, ft=20260125093000 and
to=20260125100000 (the three claimed ones plus the fixed l=15); the
computed recording duration is 1800 seconds; and the generated output
filename is TBS_2026-01-25-09_30.mp4, following
station_YYYY-MM-DD-HH_MM with the fixed extension. -/
theorem c10_timefree_amended :
    queryParamsOf
        (build_timefree_url ("TBS") ("20260125093000") ("20260125100000"))
      = ["station_id=TBS", "l=15", "ft=20260125093000", "to=20260125100000"]
    ∧ tfrecDurationSeconds ("20260125093000") ("20260125100000") = some 1800
    ∧ generate_output_filename ("TBS") ("20260125093000") ("20260125100000")
        = "TBS_2026-01-25-09_30.mp4" := by
  refine ⟨rfl, by decide, rfl⟩
